import Mathlib

/-
Shallow embedding of the interrupt-to-delivery pipeline of src/src/main.c
(BMA400 accelerometer sampled over SPI, samples forwarded over a BLE GATT
notification).

Conventions of the embedding:
- C int16_t values are Lean Int values in the range [-32768, 32767].
- C uint8_t bytes are Nat values in [0, 255] (for payload bytes derived from
  C bitwise arithmetic on signed ints we keep them as Int; they always land
  in [0, 255]).
- The C expression (x and 0xFF) on an int16 promoted to int is x % 256 with
  Lean Int.emod (nonnegative remainder), and the arithmetic shift (x >> 8)
  is x / 256 with Lean Int.ediv, which agrees with floor division for the
  positive divisor 256.
- The SPI bus (spi_transceive_dt / spi_write_dt) is an external collaborator
  and is modelled as an arbitrary function from the transmitted bytes and the
  requested receive length to an error code plus the contents of the receive
  buffer.
-/

namespace BMA400Pipeline

/-- The 6-byte little-endian payload that send_accel_notification stores into
accel_value: bytes 0-1 are x, 2-3 are y, 4-5 are z, each low byte first.
This mirrors main.c lines 106-111. -/
def accelPayload (x y z : Int) : List Int :=
  [x % 256, (x / 256) % 256,
   y % 256, (y / 256) % 256,
   z % 256, (z / 256) % 256]

/-- Model of send_accel_notification (main.c lines 103-118).
current_conn is the global connection pointer: none models NULL.
The result is the notification call issued: none when the function returned
early because no peer is connected, some payload when bt_gatt_notify was
called with that 6-byte buffer. -/
def send_accel_notification (current_conn : Option Nat) (x y z : Int) :
    Option (List Int) :=
  match current_conn with
  | none => none
  | some _ => some (accelPayload x y z)

/-- Modelled from the spec: the peer-side interpretation of a little-endian
unsigned 16-bit field as a signed 16-bit value (two's complement). -/
def toSigned16 (u : Int) : Int :=
  if u < 32768 then u else u - 65536

/-- Modelled from the spec: the documented deserialization of the 6-byte wire
payload (bytes 0-1 = x, 2-3 = y, 4-5 = z, each a signed little-endian 16-bit
value). The peer-side decoder is not part of this repository; the spec fixes
its layout. -/
def deserializeAccel : List Int → Option (Int × Int × Int)
  | [b0, b1, b2, b3, b4, b5] =>
      some (toSigned16 (b0 + 256 * b1),
            toSigned16 (b2 + 256 * b3),
            toSigned16 (b4 + 256 * b5))
  | _ => none

/-- Decoding the two serialized bytes of one axis recovers the axis value,
for any value representable as int16. -/
lemma toSigned16_roundtrip (x : Int) (h1 : -32768 ≤ x) (h2 : x ≤ 32767) :
    toSigned16 (x % 256 + 256 * ((x / 256) % 256)) = x := by
  simp only [toSigned16]
  split <;> omega

/-- Model of the connected callback (main.c lines 55-63): on a nonzero error
code it returns without touching current_conn; on success it stores the
(referenced) connection. The result is the new value of current_conn. -/
def connected (conn : Nat) (err : Nat) (current_conn : Option Nat) :
    Option Nat :=
  if err ≠ 0 then current_conn else some conn

/-- Model of the disconnected callback (main.c lines 65-72): drops any held
reference and resets current_conn to NULL. -/
def disconnected (current_conn : Option Nat) : Option Nat :=
  none

/-- Outcome of one spi_transceive_dt call, as seen by the adapter: the error
code it returned and the bytes it left in the receive buffer (indexed from
byte 0). -/
structure SpiResult where
  err : Int
  rx : Nat → Nat

/-- The SPI transport, an external collaborator: a function from the
transmitted bytes and the requested receive length to the transceive
outcome. -/
def SpiBus : Type :=
  List Nat → Nat → SpiResult

/-- Everything observable about one read_reg_spi call: the bytes transmitted,
the number of bytes requested into the receive buffer, the value returned to
the BMA400 library, and the bytes copied into the caller's data buffer. -/
structure ReadRegOutcome where
  txBytes : List Nat
  rxLen : Nat
  ret : Int
  data : List Nat

/-- Model of read_reg_spi (main.c lines 217-251). It transmits the single
register address byte, requests len + 1 receive bytes, and copies
rx_buffer[1 .. len] into the caller's buffer. The error code of
spi_transceive_dt is only logged: the return of the error is commented out
in the source, so the function always returns 0 and copies the buffer
regardless of the error. -/
def read_reg_spi (bus : SpiBus) (reg_address : Nat) (len : Nat) :
    ReadRegOutcome :=
  let tx_buffer : List Nat := [reg_address]
  let r := bus tx_buffer (len + 1)
  { txBytes := tx_buffer
    rxLen := len + 1
    ret := 0
    data := (List.range len).map (fun i => r.rx (i + 1)) }

/-- Everything observable about one write_reg_spi call: the two bytes placed
into the stack transmit buffer, the declared transmit length, and the value
returned to the BMA400 library. -/
structure WriteRegOutcome where
  txBuf : List Int
  txLen : Nat
  ret : Int

/-- Model of write_reg_spi (main.c lines 253-276). The stack transmit buffer
holds exactly [reg_address, data[0]]; the declared transmit length is
len + 1; a negative spi_write_dt error code is propagated to the caller,
otherwise 0 is returned. busWrite models spi_write_dt: error code as a
function of the buffer contents and declared length. -/
def write_reg_spi (busWrite : List Int → Nat → Int) (reg_address : Int)
    (data : List Int) (len : Nat) : WriteRegOutcome :=
  let tx_buf : List Int := [reg_address, data.headI]
  let err := busWrite tx_buf (len + 1)
  { txBuf := tx_buf
    txLen := len + 1
    ret := if err < 0 then err else 0 }

/-- The observable events of one iteration of the worker loop
thread_read_bma400 (main.c lines 182-210), in program order. -/
inductive CycleEvent where
  | semTake
  | pmResume
  | sensorRead
  | connCheck
  | notifyCall
  | pmSuspend
deriving DecidableEq, Repr

/-- The events produced inside send_accel_notification: it always checks
current_conn first (main.c line 104) and calls bt_gatt_notify only when a
peer is connected. -/
def sendEvents (current_conn : Option Nat) : List CycleEvent :=
  match current_conn with
  | none => [CycleEvent.connCheck]
  | some _ => [CycleEvent.connCheck, CycleEvent.notifyCall]

/-- The event trace of one iteration of the worker loop
thread_read_bma400 (main.c lines 196-208): take the semaphore, resume the
SPI device, read one sample with bma400_get_accel_data (whose readErr result
the code discards), call send_accel_notification, then suspend the SPI
device. There is no branch in the loop body, so the trace does not depend on
the read result. -/
def cycleEvents (current_conn : Option Nat) (readErr : Int) : List CycleEvent :=
  [CycleEvent.semTake, CycleEvent.pmResume, CycleEvent.sensorRead]
    ++ sendEvents current_conn ++ [CycleEvent.pmSuspend]

/-- Index of the first occurrence of an event in a trace (length of the trace
if absent). -/
def idxOf : List CycleEvent → CycleEvent → Nat
  | [], _ => 0
  | a :: l, e => if a = e then 0 else idxOf l e + 1

/-- Number of occurrences of an event in a trace. -/
def countEv (l : List CycleEvent) (e : CycleEvent) : Nat :=
  (l.filter (fun a => a = e)).length

/-- The SPI bus power state after running a trace from the suspended state:
PM_DEVICE_ACTION_RESUME powers it, PM_DEVICE_ACTION_SUSPEND unpowers it. -/
def busPoweredAfter (l : List CycleEvent) : Bool :=
  l.foldl
    (fun s e =>
      match e with
      | CycleEvent.pmResume => true
      | CycleEvent.pmSuspend => false
      | _ => s)
    false

/-- Model of k_sem_give on the bma400_ready semaphore, defined with
K_SEM_DEFINE(bma400_ready, 0, 1) (main.c line 126): the count saturates at
the limit 1. This is the only action of bma_int_handler (main.c lines
174-179). -/
def k_sem_give (count : Nat) : Nat :=
  min (count + 1) 1

/-- The cross-context events of the handoff: an interrupt firing (which runs
bma_int_handler) or the worker waking and attempting k_sem_take. -/
inductive SysEvent where
  | irq
  | wake
deriving DecidableEq, Repr

/-- The handoff state: the pending count of bma400_ready and the number of
read-and-deliver cycles the worker has executed. -/
structure SysState where
  pending : Nat
  cycles : Nat
deriving DecidableEq, Repr

/-- One step of the handoff. An irq gives the semaphore (saturating at 1).
A wake is the worker attempting k_sem_take: if the count is zero it blocks
and nothing happens; otherwise the count is decremented and exactly one
read-and-deliver cycle runs. -/
def stepSys (s : SysState) : SysEvent → SysState
  | SysEvent.irq => { s with pending := k_sem_give s.pending }
  | SysEvent.wake =>
      match s.pending with
      | 0 => s
      | p + 1 => { pending := p, cycles := s.cycles + 1 }

/-- Run a sequence of handoff events from a state. -/
def runSys (es : List SysEvent) (s : SysState) : SysState :=
  es.foldl stepSys s

/-- C1 (counterexample): with a peer connected, the sample x=100, y=-50,
z=32760 is NOT delivered as the payload 64 00 CE FF 78 7F claimed by the
spec: z = 32760 = 0x7FF8 serializes little-endian as F8 7F, not 78 7F. -/
theorem C1_payload_counterexample :
    send_accel_notification (some 0) 100 (-50) 32760 ≠
      some [0x64, 0x00, 0xCE, 0xFF, 0x78, 0x7F] := by
  decide

/-- C1 (amended): with a peer connected, the sample x=100, y=-50, z=32760 is
delivered as exactly the 6-byte payload 64 00 CE FF F8 7F. -/
theorem C1_payload_scenario :
    send_accel_notification (some 0) 100 (-50) 32760 =
      some [0x64, 0x00, 0xCE, 0xFF, 0xF8, 0x7F] := by
  decide

/-- C2: for every triple of signed 16-bit values, serializing with
send_accel_notification's little-endian layout and deserializing with the
documented wire layout reconstructs exactly (x, y, z). -/
theorem C2_roundtrip (x y z : Int)
    (hx1 : -32768 ≤ x) (hx2 : x ≤ 32767)
    (hy1 : -32768 ≤ y) (hy2 : y ≤ 32767)
    (hz1 : -32768 ≤ z) (hz2 : z ≤ 32767) :
    deserializeAccel (accelPayload x y z) = some (x, y, z) := by
  simp only [accelPayload, deserializeAccel,
    toSigned16_roundtrip x hx1 hx2, toSigned16_roundtrip y hy1 hy2,
    toSigned16_roundtrip z hz1 hz2]

/-- C2 witness: the round-trip evaluated at the concrete sample
(100, -50, 32760). -/
theorem C2_roundtrip_witness :
    (-32768 ≤ (100 : Int) ∧ (100 : Int) ≤ 32767) ∧
    deserializeAccel (accelPayload 100 (-50) 32760) = some (100, -50, 32760) :=
  ⟨by decide,
   C2_roundtrip 100 (-50) 32760 (by decide) (by decide) (by decide) (by decide)
     (by decide) (by decide)⟩

/-- C5: when current_conn is NULL, send_accel_notification issues no
notification call for any sample, and the worker cycle trace contains no
bt_gatt_notify event: the sample is dropped with nothing queued. -/
theorem C5_disconnected_drops (x y z readErr : Int) :
    send_accel_notification none x y z = none ∧
    CycleEvent.notifyCall ∉ cycleEvents none readErr := by
  refine ⟨rfl, ?_⟩
  simp [cycleEvents, sendEvents]

/-- C10: a connected callback with a nonzero error code leaves current_conn
unchanged; in particular if it was NULL (Disconnected) it stays NULL, so a
failed connection attempt never makes the delivery path treat a peer as
connected. -/
theorem C10_failed_connect_keeps_state (conn err : Nat)
    (current_conn : Option Nat) (h : err ≠ 0) :
    connected conn err current_conn = current_conn ∧
    (current_conn = none → connected conn err current_conn = none) := by
  constructor
  · simp [connected, h]
  · intro hn
    simp [connected, h, hn]

/-- C10 witness: the failed-connect callback evaluated at err = 3 with no
prior connection. -/
theorem C10_failed_connect_witness :
    (3 : Nat) ≠ 0 ∧ connected 7 3 none = none :=
  ⟨by decide, (C10_failed_connect_keeps_state 7 3 none (by decide)).1⟩

/-- A concrete SPI bus used to evaluate the adapter: the transceive succeeds
and leaves byte i + 10 at receive position i. -/
def constBus : SpiBus :=
  fun _ _ => { err := 0, rx := fun i => i + 10 }

/-- A concrete SPI bus whose transceive always fails with error code -5. -/
def failBus : SpiBus :=
  fun _ _ => { err := -5, rx := fun _ => 0 }

/-- C3: for every register read of nonzero length, read_reg_spi transmits
exactly the one address byte, requests len + 1 receive bytes, and hands the
caller bytes 1 .. len of the receive buffer, discarding the dummy byte 0. -/
theorem C3_read_register_framing (bus : SpiBus) (a len : Nat) (h : 0 < len) :
    (read_reg_spi bus a len).txBytes = [a] ∧
    (read_reg_spi bus a len).rxLen = len + 1 ∧
    (read_reg_spi bus a len).data.length = len ∧
    ∀ i, i < len →
      (read_reg_spi bus a len).data[i]? =
        some ((bus [a] (len + 1)).rx (i + 1)) := by
  refine ⟨rfl, rfl, by simp [read_reg_spi], ?_⟩
  intro i hi
  simp [read_reg_spi, hi]

/-- C3 witness: a concrete read of length 2 at register 0x12 over constBus:
the data returned is bytes 1 and 2 of the receive buffer, values 11 and
12. -/
theorem C3_read_register_witness :
    0 < 2 ∧
    (read_reg_spi constBus 0x12 2).txBytes = [0x12] ∧
    (read_reg_spi constBus 0x12 2).data[1]? =
      some ((constBus [0x12] 3).rx 2) :=
  ⟨by decide,
   (C3_read_register_framing constBus 0x12 2 (by decide)).1,
   (C3_read_register_framing constBus 0x12 2 (by decide)).2.2.2 1 (by decide)⟩

/-- C4 (counterexample): over failBus the transceive reports the nonzero
error -5, yet read_reg_spi returns 0 (success) to the caller: the error
return in the source is commented out, so no TransportError is propagated. -/
theorem C4_error_counterexample :
    (failBus [0x10] 2).err = -5 ∧ (read_reg_spi failBus 0x10 1).ret = 0 :=
  ⟨rfl, rfl⟩

/-- C4 (amended): read_reg_spi returns 0 to the caller for every bus, address
and length, even when the underlying transceive reports a nonzero error; the
error is only logged, and the receive buffer is copied to the caller
regardless. -/
theorem C4_always_returns_success (bus : SpiBus) (a len : Nat) :
    (read_reg_spi bus a len).ret = 0 ∧
    (read_reg_spi bus a len).data =
      (List.range len).map (fun i => (bus [a] (len + 1)).rx (i + 1)) :=
  ⟨rfl, rfl⟩

/-- C9: write_reg_spi places exactly [address, data[0]] in the transmit
buffer, whatever the requested length and however long data is, and returns
the transport error code when the underlying write fails. -/
theorem C9_write_register (busWrite : List Int → Nat → Int) (a : Int)
    (data : List Int) (len : Nat) :
    (write_reg_spi busWrite a data len).txBuf = [a, data.headI] ∧
    (write_reg_spi busWrite a data len).txLen = len + 1 ∧
    (busWrite [a, data.headI] (len + 1) < 0 →
      (write_reg_spi busWrite a data len).ret =
        busWrite [a, data.headI] (len + 1)) := by
  refine ⟨rfl, rfl, ?_⟩
  intro hneg
  simp [write_reg_spi, hneg]

/-- C9 witness: a concrete failing write (error code -7) of a 3-byte data
buffer with requested length 3: the transmit buffer still holds only the
address and the first data byte, and the error is propagated. -/
theorem C9_write_register_witness :
    (write_reg_spi (fun _ _ => (-7 : Int)) 0x27 [5, 6, 7] 3).txBuf = [0x27, 5] ∧
    ((fun (_ : List Int) (_ : Nat) => (-7 : Int)) [0x27, 5] 4 < 0 ∧
      (write_reg_spi (fun _ _ => (-7 : Int)) 0x27 [5, 6, 7] 3).ret = -7) :=
  ⟨(C9_write_register (fun _ _ => (-7 : Int)) 0x27 [5, 6, 7] 3).1,
   by decide,
   (C9_write_register (fun _ _ => (-7 : Int)) 0x27 [5, 6, 7] 3).2.2 (by decide)⟩

/-- C6 (counterexample): with a peer connected, the bus release
(PM_DEVICE_ACTION_SUSPEND) does NOT happen before the connection-state
check: in the loop body the suspend is the last statement, after
send_accel_notification. -/
theorem C6_release_not_before_check :
    ¬ (idxOf (cycleEvents (some 0) 0) CycleEvent.pmSuspend <
        idxOf (cycleEvents (some 0) 0) CycleEvent.connCheck) := by
  decide

/-- C6 (amended): within every cycle the bus release happens strictly AFTER
the connection-state check (and after the notification call when one is
issued): the worker still holds the powered bus while it talks to the
radio. -/
theorem C6_release_after_check (conn : Option Nat) (readErr : Int) :
    idxOf (cycleEvents conn readErr) CycleEvent.connCheck <
      idxOf (cycleEvents conn readErr) CycleEvent.pmSuspend ∧
    (CycleEvent.notifyCall ∈ cycleEvents conn readErr →
      idxOf (cycleEvents conn readErr) CycleEvent.notifyCall <
        idxOf (cycleEvents conn readErr) CycleEvent.pmSuspend) := by
  cases conn with
  | none =>
      rw [show cycleEvents none readErr = cycleEvents none 0 from rfl]
      decide
  | some c =>
      rw [show cycleEvents (some c) readErr = cycleEvents (some 0) 0 from rfl]
      decide

/-- C6 amended witness: the ordering evaluated on the connected trace, where
a notification call is present. -/
theorem C6_release_after_check_witness :
    CycleEvent.notifyCall ∈ cycleEvents (some 0) 0 ∧
    idxOf (cycleEvents (some 0) 0) CycleEvent.notifyCall <
      idxOf (cycleEvents (some 0) 0) CycleEvent.pmSuspend :=
  ⟨by decide, (C6_release_after_check (some 0) 0).2 (by decide)⟩

/-- C7: in every iteration of the worker loop, whatever the connection state
and whatever the discarded sensor-read result, the resume and suspend counts
are equal (one each), the suspend comes after the transceive attempt, and
the bus is left unpowered at the end of the cycle. -/
theorem C7_release_every_path (conn : Option Nat) (readErr : Int) :
    countEv (cycleEvents conn readErr) CycleEvent.pmResume =
      countEv (cycleEvents conn readErr) CycleEvent.pmSuspend ∧
    idxOf (cycleEvents conn readErr) CycleEvent.sensorRead <
      idxOf (cycleEvents conn readErr) CycleEvent.pmSuspend ∧
    busPoweredAfter (cycleEvents conn readErr) = false := by
  cases conn with
  | none =>
      rw [show cycleEvents none readErr = cycleEvents none 0 from rfl]
      decide
  | some c =>
      rw [show cycleEvents (some c) readErr = cycleEvents (some 0) 0 from rfl]
      decide

/-- One step of the handoff keeps the pending count at or below the
semaphore limit 1. -/
lemma stepSys_pending_le (s : SysState) (e : SysEvent) (h : s.pending ≤ 1) :
    (stepSys s e).pending ≤ 1 := by
  cases e with
  | irq => simp [stepSys, k_sem_give]
  | wake =>
      cases hp : s.pending with
      | zero => simpa [stepSys, hp] using h
      | succ p => simp [stepSys, hp] at h ⊢; omega

/-- Any event sequence keeps the pending count at or below 1. -/
lemma runSys_pending_le (es : List SysEvent) (s : SysState)
    (h : s.pending ≤ 1) : (runSys es s).pending ≤ 1 := by
  induction es generalizing s with
  | nil => simpa [runSys] using h
  | cons e es ih =>
      have : runSys (e :: es) s = runSys es (stepSys s e) := rfl
      rw [this]
      exact ih (stepSys s e) (stepSys_pending_le s e h)

/-- Further interrupts while the signal is already pending are coalesced:
the state does not change. -/
lemma runSys_irq_saturated (n : Nat) (c : Nat) :
    runSys (List.replicate n SysEvent.irq) ⟨1, c⟩ = ⟨1, c⟩ := by
  induction n with
  | zero => rfl
  | succ k ih =>
      rw [List.replicate_succ]
      have : runSys (SysEvent.irq :: List.replicate k SysEvent.irq) ⟨1, c⟩ =
          runSys (List.replicate k SysEvent.irq) (stepSys ⟨1, c⟩ SysEvent.irq) :=
        rfl
      rw [this]
      simpa [stepSys, k_sem_give] using ih

/-- At least one interrupt from an empty signal leaves exactly one pending
signal, however many interrupts fired. -/
lemma runSys_irq_burst (n : Nat) (hn : 1 ≤ n) (c : Nat) :
    runSys (List.replicate n SysEvent.irq) ⟨0, c⟩ = ⟨1, c⟩ := by
  cases n with
  | zero => omega
  | succ k =>
      rw [List.replicate_succ]
      have : runSys (SysEvent.irq :: List.replicate k SysEvent.irq) ⟨0, c⟩ =
          runSys (List.replicate k SysEvent.irq) (stepSys ⟨0, c⟩ SysEvent.irq) :=
        rfl
      rw [this]
      simpa [stepSys, k_sem_give] using runSys_irq_saturated k c

/-- Waking the worker with no pending signal does nothing: it blocks on
k_sem_take. -/
lemma runSys_wake_empty (m : Nat) (c : Nat) :
    runSys (List.replicate m SysEvent.wake) ⟨0, c⟩ = ⟨0, c⟩ := by
  induction m with
  | zero => rfl
  | succ k ih =>
      rw [List.replicate_succ]
      have : runSys (SysEvent.wake :: List.replicate k SysEvent.wake) ⟨0, c⟩ =
          runSys (List.replicate k SysEvent.wake) (stepSys ⟨0, c⟩ SysEvent.wake) :=
        rfl
      rw [this]
      simpa [stepSys] using ih

/-- C8: the pending count of bma400_ready never exceeds 1 under any event
sequence starting within the limit, and a burst of n interrupts (n at least
1) that arrives before the worker drains the signal yields exactly one
read-and-deliver cycle, no matter how many times the worker subsequently
wakes and re-checks. -/
theorem C8_interrupt_coalescing :
    (∀ es : List SysEvent, ∀ s : SysState, s.pending ≤ 1 →
      (runSys es s).pending ≤ 1) ∧
    (∀ n m : Nat, 1 ≤ n → 1 ≤ m →
      (runSys (List.replicate n SysEvent.irq ++ List.replicate m SysEvent.wake)
        ⟨0, 0⟩).cycles = 1) := by
  constructor
  · exact runSys_pending_le
  · intro n m hn hm
    rw [runSys, List.foldl_append]
    have h1 : List.foldl stepSys ⟨0, 0⟩ (List.replicate n SysEvent.irq) =
        (⟨1, 0⟩ : SysState) := runSys_irq_burst n hn 0
    rw [h1]
    cases m with
    | zero => omega
    | succ k =>
        rw [List.replicate_succ]
        have h2 : List.foldl stepSys (⟨1, 0⟩ : SysState)
            (SysEvent.wake :: List.replicate k SysEvent.wake) =
            List.foldl stepSys (stepSys ⟨1, 0⟩ SysEvent.wake)
              (List.replicate k SysEvent.wake) := rfl
        rw [h2]
        have h3 : stepSys (⟨1, 0⟩ : SysState) SysEvent.wake =
            (⟨0, 1⟩ : SysState) := rfl
        rw [h3]
        have h4 := runSys_wake_empty k 1
        rw [runSys] at h4
        rw [h4]

/-- C8 witness: three interrupts fired before the worker drains, then two
worker wakes: the pending count stayed within 1 and exactly one cycle ran. -/
theorem C8_interrupt_coalescing_witness :
    (runSys [SysEvent.irq, SysEvent.irq, SysEvent.irq] ⟨0, 0⟩).pending ≤ 1 ∧
    (runSys (List.replicate 3 SysEvent.irq ++ List.replicate 2 SysEvent.wake)
      ⟨0, 0⟩).cycles = 1 :=
  ⟨C8_interrupt_coalescing.1 [SysEvent.irq, SysEvent.irq, SysEvent.irq] ⟨0, 0⟩
     (by decide),
   C8_interrupt_coalescing.2 3 2 (by decide) (by decide)⟩

end BMA400Pipeline
